import Mathlib

/-
A shallow embedding of the WebSocket terminal bridge in
`src/server/wss/terminal.ts` (vmboard).  Side-effecting library calls
(stream.setWindow, stream.write, ws.send, ws.close, conn.end, stream.end,
clearInterval, the database lookups, conn.connect) are modelled as explicit
`Effect` values; each event handler of the source becomes a Lean function
from its inputs to the list of effects it performs, in source order.
JSON.parse plus the subsequent field accesses are modelled by an abstract
`decode` function supplied as a parameter: in the source it either yields an
object with the four optional fields the handler reads, throws a
SyntaxError (decode-format failure), or throws some other error (e.g. a
TypeError when the parsed value is null and `.type` is accessed).
-/

/-- A JavaScript value as far as the handler inspects one: the handler only
distinguishes strings, numbers and everything else (via typeof checks and
an equality test against the string "resize"). -/
inductive JSValue where
  | str : String → JSValue
  | num : Int → JSValue
  | other : JSValue
deriving DecidableEq, Repr

/-- The four optional fields the message handler reads off the parsed
object: `data.type`, `data.rows`, `data.cols`, `data.data`.  A missing field
(JS `undefined`) is `none`. -/
structure ParsedMsg where
  type : Option JSValue
  rows : Option JSValue
  cols : Option JSValue
  data : Option JSValue
deriving DecidableEq, Repr

/-- Outcome of `JSON.parse(message.toString())` together with the field
accesses: success with an object, a decode-format failure (SyntaxError,
caught and turned into the raw fallback), or any other thrown error
(re-thrown to the outer catch), carrying its message string. -/
inductive DecodeResult where
  | ok : ParsedMsg → DecodeResult
  | formatErr : DecodeResult
  | otherErr : String → DecodeResult
deriving DecidableEq, Repr

/-- A record stored in the ssh-key table, as used by the bridge: only its
`privateKey` column is read. -/
structure SSHKeyRec where
  privateKey : String
deriving DecidableEq, Repr

/-- The `sshInfo` JSON column of a vm row, restricted to the fields the
bridge reads (`sshKeyId`, `privateKey`, `host`, `port`, `username`). -/
structure SSHInfo where
  sshKeyId : Option Nat
  privateKey : Option String
  host : Option String
  port : Option Nat
  username : Option String
deriving DecidableEq, Repr

/-- A vm row, restricted to the fields the bridge reads. -/
structure VMRec where
  sshInfo : Option SSHInfo
  ipAddress : Option String
deriving DecidableEq, Repr

/-- Options object passed to `conn.connect` (source lines 215-224), after
evaluating the object literal: the three fixed timing fields, then host,
port, username, privateKey with their JS `||` / `??` fallbacks applied. -/
structure ConnectParams where
  timeout : Nat
  keepaliveInterval : Nat
  readyTimeout : Nat
  host : Option String
  port : Nat
  username : String
  privateKey : Option String
deriving DecidableEq, Repr

/-- One observable side effect performed by the bridge. -/
inductive Effect where
  | setWindow : Int → Int → Int → Int → Effect
  | shellWrite : String → Effect
  | wsSend : String → Effect
  | wsClose : Effect
  | connEnd : Effect
  | streamEnd : Effect
  | clearPing : Effect
  | startPing : Effect
  | resolverLookup : String → Effect
  | keyLookup : Nat → Effect
  | connectAttempt : ConnectParams → Effect
deriving DecidableEq, Repr

/-- Count of an effect in an effect trace. -/
def countEff (e : Effect) : List Effect → Nat
  | [] => 0
  | x :: xs => (if x = e then 1 else 0) + countEff e xs

/-- The `ws.on("message")` handler, source lines 139-186.  `decode` models
JSON.parse plus field access on the result; `message` is the (utf8) string
form of the inbound frame (the source normalises Buffers to utf8 first and
uses `message.toString()` both for parsing and for the raw fallback). -/
def handleMessage (decode : String → DecodeResult) (message : String) :
    List Effect :=
  match decode message with
  | DecodeResult.ok d =>
      if d.type = some (JSValue.str "resize") then
        match d.rows, d.cols with
        | some (JSValue.num r), some (JSValue.num c) =>
            [Effect.setWindow r c (c * 7) (r * 14)]
        | _, _ => []
      else
        match d.data with
        | some (JSValue.str s) => [Effect.shellWrite s]
        | _ => [Effect.shellWrite message]
  | DecodeResult.formatErr => [Effect.shellWrite message]
  | DecodeResult.otherErr e => [Effect.wsSend ("[ERROR] " ++ e)]

/-- The `stream.on("close")` handler, source lines 119-125: cancel the
heartbeat, send the close notice, end the ssh connection, close the socket. -/
def onStreamClose (code : Int) : List Effect :=
  [Effect.clearPing,
   Effect.wsSend ("\nConnection closed (" ++ toString code ++ ")\n"),
   Effect.connEnd,
   Effect.wsClose]

/-- The `ws.on("close")` handler, source lines 188-193: cancel the
heartbeat, end the shell stream, end the ssh connection. -/
def onWsClose : List Effect :=
  [Effect.clearPing, Effect.streamEnd, Effect.connEnd]

/-- The `stream.on("error")` handler, source lines 195-198: log and send an
error notice, nothing else. -/
def onStreamError (emsg : String) : List Effect :=
  [Effect.wsSend ("[ERROR] Stream error: " ++ emsg)]

/-- The `stream.on("data")` and `stderr.on("data")` handlers, source lines
126-137: forward the chunk to the socket. -/
def onStreamData (chunk : String) : List Effect :=
  [Effect.wsSend chunk]

/-- Session state as far as the event wiring goes: all handlers for socket
messages, socket close, stream data/close/error are registered inside the
`conn.shell` callback (source lines 108-199), so the only state that
matters to event dispatch is whether that callback has run. -/
structure SessState where
  handlerInstalled : Bool
deriving DecidableEq, Repr

/-- One step of the event-driven session: Node-style event dispatch — an
event whose handler is not yet registered is dropped (not buffered, not
reported).  `shellOpened` is the `conn.shell` callback succeeding: it sends
the clear-screen sequence and registers every handler. -/
inductive SessionEvent where
  | shellOpened : SessionEvent
  | wsMessage : String → SessionEvent
  | streamData : String → SessionEvent
  | streamClose : Int → SessionEvent
  | streamErrEv : String → SessionEvent
  | wsClosed : SessionEvent
deriving DecidableEq, Repr

/-- Dispatch one event against the current session state, yielding the new
state and the effects the registered handler (if any) performs. -/
def stepSession (decode : String → DecodeResult) (st : SessState) :
    SessionEvent → SessState × List Effect
  | SessionEvent.shellOpened =>
      ({ handlerInstalled := true }, [Effect.wsSend "\x1b[2J"])
  | SessionEvent.wsMessage m =>
      (st, if st.handlerInstalled then handleMessage decode m else [])
  | SessionEvent.streamData chunk =>
      (st, if st.handlerInstalled then onStreamData chunk else [])
  | SessionEvent.streamClose code =>
      (st, if st.handlerInstalled then onStreamClose code else [])
  | SessionEvent.streamErrEv emsg =>
      (st, if st.handlerInstalled then onStreamError emsg else [])
  | SessionEvent.wsClosed =>
      (st, if st.handlerInstalled then onWsClose else [])

/-- Run a whole event trace, concatenating the effects of each step. -/
def runSession (decode : String → DecodeResult) :
    SessState → List SessionEvent → List Effect
  | _, [] => []
  | st, ev :: evs =>
      (stepSession decode st ev).2 ++
        runSession decode (stepSession decode st ev).1 evs

/-- Drop leading JS whitespace, as `Number.parseInt` does. -/
def skipWs : List Char → List Char
  | [] => []
  | c :: cs =>
      if c = ' ' ∨ c = '\t' ∨ c = '\n' ∨ c = '\r' then skipWs cs
      else c :: cs

/-- Accumulate the value of a decimal digit list. -/
def digitsValAux : Nat → List Char → Nat
  | acc, [] => acc
  | acc, c :: cs => digitsValAux (acc * 10 + (c.toNat - 48)) cs

/-- Parse the longest leading run of decimal digits; `none` when there is
none (the NaN outcome of `Number.parseInt`). -/
def parseDigits (cs : List Char) : Option Int :=
  let ds := cs.takeWhile (fun c => c.isDigit)
  if ds = [] then none else some ((digitsValAux 0 ds : Nat) : Int)

/-- Modelled JS `Number.parseInt` in base 10: skip whitespace, optional
sign, longest leading digit run; `none` models NaN (no digits).  The
hexadecimal radix-detection path of parseInt is not modelled (never
relevant to the properties below). -/
def parseIntJS (s : String) : Option Int :=
  match skipWs s.data with
  | '-' :: rest => (parseDigits rest).map (fun n => -n)
  | '+' :: rest => parseDigits rest
  | cs => parseDigits cs

/-- Source lines 51-52: the geometry taken from the query string,
`Number.parseInt(url.searchParams.get(p) ?? dflt)`.  `none` in a component
models NaN. -/
def requestedGeometry (colsParam rowsParam : Option String) :
    Option Int × Option Int :=
  (parseIntJS (colsParam.getD "80"), parseIntJS (rowsParam.getD "30"))

/-- JS truthiness of an optional string: null/undefined and the empty
string are falsy. -/
def jsTruthyStr : Option String → Bool
  | none => false
  | some s => decide (s ≠ "")

/-- Source line 76-80: the ternary `vm.sshInfo.sshKeyId ? await
db.query.sshKeysTable.findFirst(...) : null` — the stored-key lookup is
performed only when `sshKeyId` is truthy (present and nonzero). -/
def storedKeyQuery (keyLookup : Nat → Option SSHKeyRec) (info : SSHInfo) :
    Option SSHKeyRec :=
  match info.sshKeyId with
  | some id => if id = 0 then none else keyLookup id
  | none => none

/-- Source line 82: `sshKey?.privateKey ?? vm.sshInfo.privateKey`. -/
def selectPrivateKey (keyLookup : Nat → Option SSHKeyRec) (info : SSHInfo) :
    Option String :=
  match storedKeyQuery keyLookup info with
  | some k => some k.privateKey
  | none => info.privateKey

/-- Source lines 215-224: the options literal handed to `conn.connect`.
The fixed timing fields come first; `host`, `port`, `username`,
`privateKey` are written after the `...vm.sshInfo` spread and therefore
always win, with JS `||` fallbacks (`|| 22`, `|| "root"`, and
`host || ipAddress || undefined`). -/
def mkConnectParams (keyLookup : Nat → Option SSHKeyRec) (vm : VMRec)
    (info : SSHInfo) : ConnectParams :=
  { timeout := 3000
    keepaliveInterval := 10000
    readyTimeout := 3000
    host :=
      if jsTruthyStr info.host then info.host
      else if jsTruthyStr vm.ipAddress then vm.ipAddress
      else none
    port :=
      match info.port with
      | some p => if p = 0 then 22 else p
      | none => 22
    username :=
      match info.username with
      | some u => if u = "" then "root" else u
      | none => "root"
    privateKey := selectPrivateKey keyLookup info }

/-- Source lines 39-96 and 215-224: the connection-establishment sequence,
from the auth check to calling `conn.connect`, as the ordered list of
effects it performs.  `hasSession` is whether `auth.api.getSession`
returned a session; `vmId` is `url.searchParams.get("vmId")` (`!vmId`
rejects both null and the empty string); `vmLookup` and `keyLookup` are the
two database queries. -/
def setupConnection (hasSession : Bool) (vmId : Option String)
    (vmLookup : String → Option VMRec)
    (keyLookup : Nat → Option SSHKeyRec) : List Effect :=
  if hasSession = false then
    [Effect.wsSend "[ERROR] Unauthorized", Effect.wsClose]
  else
    match vmId with
    | none => [Effect.wsSend "[ERROR] Invalid request", Effect.wsClose]
    | some id =>
      if id = "" then
        [Effect.wsSend "[ERROR] Invalid request", Effect.wsClose]
      else
        Effect.resolverLookup id ::
        match vmLookup id with
        | none => [Effect.wsSend "[ERROR] Server not found", Effect.wsClose]
        | some vm =>
          match vm.sshInfo with
          | none =>
              [Effect.wsSend
                "[ERROR] No SSH key or password available for this server",
               Effect.wsClose]
          | some info =>
              (match info.sshKeyId with
               | some kid => if kid = 0 then [] else [Effect.keyLookup kid]
               | none => []) ++
              [Effect.startPing,
               Effect.wsSend "正在尝试连接服务器...\r",
               Effect.connectAttempt (mkConnectParams keyLookup vm info)]

/-- A decode function that always reports a decode-format failure, used to
instantiate witnesses on raw (non-JSON) input. -/
def decodeStub : String → DecodeResult := fun _ => DecodeResult.formatErr

/-- A decode function reporting a well-formed 40x120 resize object. -/
def decodeResize40x120 : String → DecodeResult := fun _ =>
  DecodeResult.ok
    { type := some (JSValue.str "resize"), rows := some (JSValue.num 40),
      cols := some (JSValue.num 120), data := none }

/-- A decode function reporting a non-format error, as when `JSON.parse`
yields `null` and the field access throws a TypeError. -/
def decodeNullMsg : String → DecodeResult := fun _ =>
  DecodeResult.otherErr "Cannot read properties of null"

/-- The event trace in which the shell opens and then both teardown
triggers fire: the shell stream closes (code 0), whose handler calls
`ws.close()`, and the resulting socket close event fires. -/
def bothCloseTrace : List SessionEvent :=
  [SessionEvent.shellOpened, SessionEvent.streamClose 0,
   SessionEvent.wsClosed]

/-- A concrete sshInfo omitting host, port and username. -/
def infoOmitted : SSHInfo :=
  { sshKeyId := none, privateKey := some "pk", host := none,
    port := none, username := none }

/-- A concrete vm row whose sshInfo omits host/port/username but that has
a stored IP address. -/
def vmWithIp : VMRec :=
  { sshInfo := some infoOmitted, ipAddress := some "10.0.0.7" }

/-- A concrete sshInfo referencing stored key 5 while also carrying inline
key material. -/
def infoWithKeyRef : SSHInfo :=
  { sshKeyId := some 5, privateKey := some "inline-material", host := none,
    port := none, username := none }

/-- A concrete key store holding the record for id 5. -/
def keyStore5 : Nat → Option SSHKeyRec :=
  fun i => if i = 5 then some ⟨"stored-material"⟩ else none

/-- C1: a message decoding to a structured object with type "resize" and
numeric rows and cols makes the handler call the window-resize primitive
with (rows, cols, cols*7, rows*14) and write nothing to the shell input. -/
theorem resize_sets_window_no_write
    (decode : String → DecodeResult) (msg : String) (r c : Int)
    (dOpt : Option JSValue)
    (h : decode msg =
      DecodeResult.ok
        { type := some (JSValue.str "resize"), rows := some (JSValue.num r),
          cols := some (JSValue.num c), data := dOpt }) :
    handleMessage decode msg = [Effect.setWindow r c (c * 7) (r * 14)] ∧
    ∀ s, Effect.shellWrite s ∉ handleMessage decode msg := by
  have hm : handleMessage decode msg =
      [Effect.setWindow r c (c * 7) (r * 14)] := by
    unfold handleMessage
    rw [h]
    simp
  refine ⟨hm, ?_⟩
  intro s
  rw [hm]
  simp

/-- Witness for C1 at a concrete 40x120 resize message. -/
theorem resize_sets_window_no_write_witness :
    handleMessage decodeResize40x120 "resize message" =
      [Effect.setWindow 40 120 (120 * 7) (40 * 14)] ∧
    ∀ s, Effect.shellWrite s ∉ handleMessage decodeResize40x120
      "resize message" :=
  resize_sets_window_no_write decodeResize40x120 "resize message"
    40 120 none rfl

/-- C2: a message that fails structured decoding outright is written to the
shell input verbatim as the only effect, and this raw fallback is taken on
no other kind of failure — a non-format failure writes nothing to the
shell. -/
theorem raw_fallback_only_on_format_failure
    (decode : String → DecodeResult) (msg : String) :
    (decode msg = DecodeResult.formatErr →
      handleMessage decode msg = [Effect.shellWrite msg]) ∧
    (∀ e, decode msg = DecodeResult.otherErr e →
      ∀ s, Effect.shellWrite s ∉ handleMessage decode msg) := by
  constructor
  · intro h
    unfold handleMessage
    rw [h]
  · intro e h s
    unfold handleMessage
    rw [h]
    simp

/-- Witness for C2: raw keystroke bytes that are not valid JSON flow
through to the shell unchanged. -/
theorem raw_fallback_only_on_format_failure_witness :
    handleMessage decodeStub "cat file" = [Effect.shellWrite "cat file"] :=
  (raw_fallback_only_on_format_failure decodeStub "cat file").1 rfl

/-- C3 counterexample: in the trace where both the stream-close and the
socket-close events fire, the remote connection is ended twice, not exactly
once as the claim states. -/
theorem double_teardown_not_single_conn_end :
    countEff Effect.connEnd (runSession decodeStub ⟨false⟩ bothCloseTrace)
      = 2 ∧
    ¬ countEff Effect.connEnd (runSession decodeStub ⟨false⟩ bothCloseTrace)
      = 1 := by
  decide

/-- C3 amended: when both teardown triggers fire, each handler runs in
full with no at-most-once guard: the socket is closed exactly once (only
the stream-close handler closes it), the stream is ended exactly once, but
the remote connection is ended once per trigger — twice in total — and the
heartbeat is cancelled twice. -/
theorem double_teardown_effect_counts
    (decode : String → DecodeResult) (code : Int) :
    countEff Effect.connEnd (runSession decode ⟨false⟩
      [SessionEvent.shellOpened, SessionEvent.streamClose code,
       SessionEvent.wsClosed]) = 2 ∧
    countEff Effect.wsClose (runSession decode ⟨false⟩
      [SessionEvent.shellOpened, SessionEvent.streamClose code,
       SessionEvent.wsClosed]) = 1 ∧
    countEff Effect.streamEnd (runSession decode ⟨false⟩
      [SessionEvent.shellOpened, SessionEvent.streamClose code,
       SessionEvent.wsClosed]) = 1 ∧
    countEff Effect.clearPing (runSession decode ⟨false⟩
      [SessionEvent.shellOpened, SessionEvent.streamClose code,
       SessionEvent.wsClosed]) = 2 := by
  refine ⟨?_, ?_, ?_, ?_⟩ <;>
    simp [runSession, stepSession, onStreamClose, onWsClose, countEff]

/-- C4 counterexample: a present but non-numeric cols parameter does not
default to 80 — `Number.parseInt` yields NaN (modelled `none`) and that NaN
is what the shell is opened with. -/
theorem non_numeric_cols_param_not_defaulted :
    (requestedGeometry (some "abc") (some "xyz")).1 = none ∧
    ¬ (requestedGeometry (some "abc") (some "xyz")).1 = some 80 := by
  decide

/-- C4 amended: the initial geometry is parseInt of the cols/rows query
parameters; the 80x30 default applies exactly when a parameter is absent
(the literal strings "80"/"30" are parsed instead), while a present
non-numeric parameter parses to NaN and is used as-is, with no default. -/
theorem geometry_defaults_only_when_absent :
    requestedGeometry none none = (some 80, some 30) ∧
    ∀ s t : String, parseIntJS s = none → parseIntJS t = none →
      requestedGeometry (some s) (some t) = (none, none) := by
  constructor
  · decide
  · intro s t hs ht
    simp [requestedGeometry, hs, ht]

/-- Witness for the amended C4 at concrete non-numeric parameters. -/
theorem geometry_defaults_only_when_absent_witness :
    requestedGeometry (some "abc") (some "xy") = (none, none) :=
  geometry_defaults_only_when_absent.2 "abc" "xy" (by decide) (by decide)

/-- C5: when handling a message fails with a non-format error, the handler
sends exactly one error-marked notice and nothing else: the socket is not
closed, the connection is not ended, and no raw fallback write happens. -/
theorem non_format_error_notice_keeps_open
    (decode : String → DecodeResult) (msg e : String)
    (h : decode msg = DecodeResult.otherErr e) :
    handleMessage decode msg = [Effect.wsSend ("[ERROR] " ++ e)] ∧
    Effect.wsClose ∉ handleMessage decode msg ∧
    Effect.connEnd ∉ handleMessage decode msg ∧
    Effect.streamEnd ∉ handleMessage decode msg ∧
    ∀ s, Effect.shellWrite s ∉ handleMessage decode msg := by
  have hm : handleMessage decode msg =
      [Effect.wsSend ("[ERROR] " ++ e)] := by
    unfold handleMessage
    rw [h]
  rw [hm]
  simp

/-- Witness for C5 on a message whose parse result provokes a TypeError. -/
theorem non_format_error_notice_keeps_open_witness :
    handleMessage decodeNullMsg "null" =
      [Effect.wsSend ("[ERROR] " ++ "Cannot read properties of null")] ∧
    Effect.wsClose ∉ handleMessage decodeNullMsg "null" ∧
    Effect.connEnd ∉ handleMessage decodeNullMsg "null" ∧
    Effect.streamEnd ∉ handleMessage decodeNullMsg "null" ∧
    ∀ s, Effect.shellWrite s ∉ handleMessage decodeNullMsg "null" :=
  non_format_error_notice_keeps_open decodeNullMsg "null"
    "Cannot read properties of null" rfl

/-- C6: an error event on the open shell stream only sends an error notice
to the socket — it closes nothing and ends nothing — while teardown effects
are produced by the stream-close handler. -/
theorem stream_error_notice_no_teardown (emsg : String) (code : Int) :
    onStreamError emsg =
      [Effect.wsSend ("[ERROR] Stream error: " ++ emsg)] ∧
    Effect.wsClose ∉ onStreamError emsg ∧
    Effect.connEnd ∉ onStreamError emsg ∧
    Effect.streamEnd ∉ onStreamError emsg ∧
    Effect.wsClose ∈ onStreamClose code ∧
    Effect.connEnd ∈ onStreamClose code := by
  simp [onStreamError, onStreamClose]

/-- C7: an authenticated connection without a vmId parameter gets the
Invalid request notice and a close, with no resolver query, no key query
and no connect attempt. -/
theorem missing_vm_id_rejected_before_resolver
    (vmLookup : String → Option VMRec)
    (keyLookup : Nat → Option SSHKeyRec)
    (hasSession : Bool) (hs : hasSession = true) :
    setupConnection hasSession none vmLookup keyLookup =
      [Effect.wsSend "[ERROR] Invalid request", Effect.wsClose] ∧
    (∀ s, Effect.resolverLookup s ∉
      setupConnection hasSession none vmLookup keyLookup) ∧
    (∀ k, Effect.keyLookup k ∉
      setupConnection hasSession none vmLookup keyLookup) ∧
    (∀ p, Effect.connectAttempt p ∉
      setupConnection hasSession none vmLookup keyLookup) := by
  subst hs
  have hm : setupConnection true none vmLookup keyLookup =
      [Effect.wsSend "[ERROR] Invalid request", Effect.wsClose] := by
    unfold setupConnection
    simp
  rw [hm]
  simp

/-- Witness for C7 with empty database functions. -/
theorem missing_vm_id_rejected_before_resolver_witness :
    setupConnection true none (fun _ => none) (fun _ => none) =
      [Effect.wsSend "[ERROR] Invalid request", Effect.wsClose] ∧
    (∀ s, Effect.resolverLookup s ∉
      setupConnection true none (fun _ => none) (fun _ => none)) ∧
    (∀ k, Effect.keyLookup k ∉
      setupConnection true none (fun _ => none) (fun _ => none)) ∧
    (∀ p, Effect.connectAttempt p ∉
      setupConnection true none (fun _ => none) (fun _ => none)) :=
  missing_vm_id_rejected_before_resolver (fun _ => none) (fun _ => none)
    true rfl

/-- C8: a socket message arriving before the shell-open callback has
registered the message handler is dropped: the step performs no effects
(no shell write, no error notice) and leaves the session state unchanged
(nothing is buffered); the handler is registered by the shell-open event. -/
theorem pre_shell_message_dropped
    (decode : String → DecodeResult) (st : SessState) (m : String)
    (h : st.handlerInstalled = false) :
    stepSession decode st (SessionEvent.wsMessage m) = (st, []) ∧
    (stepSession decode st SessionEvent.shellOpened).1.handlerInstalled
      = true := by
  constructor
  · simp [stepSession, h]
  · simp [stepSession]

/-- Witness for C8 on a concrete early message. -/
theorem pre_shell_message_dropped_witness :
    stepSession decodeStub ⟨false⟩ (SessionEvent.wsMessage "ls") =
      (⟨false⟩, []) ∧
    (stepSession decodeStub ⟨false⟩
      SessionEvent.shellOpened).1.handlerInstalled = true :=
  pre_shell_message_dropped decodeStub ⟨false⟩ "ls" rfl

/-- C9: when the resolved sshInfo omits host, port and username, the
connect options fall back to the stored IP address, port 22 and user root,
and the timing fields are the fixed 3000 ms connect timeout, 3000 ms ready
timeout and 10000 ms keep-alive interval. -/
theorem connect_params_fallbacks
    (keyLookup : Nat → Option SSHKeyRec) (vm : VMRec) (info : SSHInfo)
    (ip : String) (hhost : info.host = none) (hport : info.port = none)
    (huser : info.username = none) (hip : vm.ipAddress = some ip)
    (hipne : ip ≠ "") :
    (mkConnectParams keyLookup vm info).host = some ip ∧
    (mkConnectParams keyLookup vm info).port = 22 ∧
    (mkConnectParams keyLookup vm info).username = "root" ∧
    (mkConnectParams keyLookup vm info).timeout = 3000 ∧
    (mkConnectParams keyLookup vm info).readyTimeout = 3000 ∧
    (mkConnectParams keyLookup vm info).keepaliveInterval = 10000 := by
  simp [mkConnectParams, jsTruthyStr, hhost, hport, huser, hip, hipne]

/-- Witness for C9 with a fully omitted sshInfo and a stored IP. -/
theorem connect_params_fallbacks_witness :
    (mkConnectParams (fun _ => none) vmWithIp infoOmitted).host
      = some "10.0.0.7" ∧
    (mkConnectParams (fun _ => none) vmWithIp infoOmitted).port = 22 ∧
    (mkConnectParams (fun _ => none) vmWithIp infoOmitted).username
      = "root" ∧
    (mkConnectParams (fun _ => none) vmWithIp infoOmitted).timeout
      = 3000 ∧
    (mkConnectParams (fun _ => none) vmWithIp infoOmitted).readyTimeout
      = 3000 ∧
    (mkConnectParams (fun _ => none) vmWithIp
      infoOmitted).keepaliveInterval = 10000 :=
  connect_params_fallbacks (fun _ => none) vmWithIp infoOmitted
    "10.0.0.7" rfl rfl rfl rfl (by decide)

/-- C10: the stored key wins when its lookup happens and returns a record
(the lookup is made for a truthy, i.e. nonzero, sshKeyId); with no
sshKeyId, or when the lookup returns nothing, the inline privateKey of the
sshInfo is used. -/
theorem private_key_precedence
    (keyLookup : Nat → Option SSHKeyRec) (info : SSHInfo) :
    (∀ id k, info.sshKeyId = some id → id ≠ 0 → keyLookup id = some k →
      selectPrivateKey keyLookup info = some k.privateKey) ∧
    (info.sshKeyId = none →
      selectPrivateKey keyLookup info = info.privateKey) ∧
    (∀ id, info.sshKeyId = some id → keyLookup id = none →
      selectPrivateKey keyLookup info = info.privateKey) := by
  refine ⟨?_, ?_, ?_⟩
  · intro id k hid hne hk
    simp [selectPrivateKey, storedKeyQuery, hid, hne, hk]
  · intro hid
    simp [selectPrivateKey, storedKeyQuery, hid]
  · intro id hid hk
    by_cases h0 : id = 0
    · subst h0
      simp [selectPrivateKey, storedKeyQuery, hid]
    · simp [selectPrivateKey, storedKeyQuery, hid, h0, hk]

/-- Witness for C10: a referenced stored key shadows the inline key. -/
theorem private_key_precedence_witness :
    selectPrivateKey keyStore5 infoWithKeyRef
      = some (SSHKeyRec.mk "stored-material").privateKey :=
  (private_key_precedence keyStore5 infoWithKeyRef).1
    5 ⟨"stored-material"⟩ rfl (by decide) (by decide)
